import Mathlib

/-!
Shallow embedding of the Python-User-Session-Management repository.

Modelling conventions:
 - SQLite tables are modelled as Lean lists of records, in insertion order.
   `SELECT ... WHERE` is `List.filter` / `List.find?`, `UPDATE` is `List.map`,
   `DELETE` is `List.filter` with the negated predicate and a rowcount equal
   to the number of removed rows.
 - Wall-clock timestamps (`datetime.now().timestamp()`) are modelled as `Int`
   values; every top-level operation receives the current time `now` as an
   explicit argument, and all clock reads inside one operation happen at that
   single instant.
 - JSON-serialisable Python values round-trip unchanged through
   `json.dumps`/`json.loads`, so the serialise/parse pair is modelled as the
   identity and the `data` column holds the structured value directly.
 - Python dictionaries are modelled as association lists; assignment
   overwrites the entry in place when the key is present and appends
   otherwise, mirroring insertion-ordered dict semantics.
-/

namespace SessionMgmt

/-- A JSON-compatible value: what the repository stores in the `data` column
of `sessions`, in `event_data` of `activities`, and in `preferences`. -/
inductive JsonVal where
  | jnull : JsonVal
  | jbool (b : Bool) : JsonVal
  | jnum (n : Int) : JsonVal
  | jstr (s : String) : JsonVal
  | jarr (elems : List JsonVal) : JsonVal
  | jobj (fields : List (String × JsonVal)) : JsonVal

/-- A Python dict with string keys, as an insertion-ordered association list. -/
abbrev JsonDict := List (String × JsonVal)

/-- Python `d[key] = value`: overwrite in place when present, append otherwise. -/
def dictSet (d : JsonDict) (key : String) (value : JsonVal) : JsonDict :=
  if d.any (fun p => p.1 == key) then
    d.map (fun p => if p.1 == key then (key, value) else p)
  else
    d ++ [(key, value)]

/-- Python `d.get(key, dflt)`. -/
def dictGet (d : JsonDict) (key : String) (dflt : JsonVal) : JsonVal :=
  match d.find? (fun p => p.1 == key) with
  | some p => p.2
  | none => dflt

/-- Python `d[key]` as an optional lookup (used to phrase key-presence). -/
def dictLookup (d : JsonDict) (key : String) : Option JsonVal :=
  (d.find? (fun p => p.1 == key)).map (fun p => p.2)

/-- One row of the `sessions` table (src/session/session_store.py,
`_init_database`). -/
structure Session where
  session_id : String
  user_id : Int
  created_at : Int
  expires_at : Int
  last_activity : Int
  data : JsonDict
  ip_address : Option String
  user_agent : Option String

namespace SessionStore

/-- Embeds `SessionStore.create_session`: INSERT a fresh row; `created_at` and
`last_activity` are the current time, `data` starts as the empty dict. -/
def create_session (store : List Session) (session_id : String) (user_id : Int)
    (expires_at : Int) (ip_address user_agent : Option String) (now : Int) :
    List Session :=
  store ++ [{ session_id := session_id, user_id := user_id, created_at := now,
              expires_at := expires_at, last_activity := now, data := [],
              ip_address := ip_address, user_agent := user_agent }]

/-- Embeds `SessionStore.get_session`: SELECT by primary key. -/
def get_session (store : List Session) (session_id : String) : Option Session :=
  store.find? (fun s => s.session_id == session_id)

/-- Embeds `SessionStore.update_session_activity`: UPDATE `last_activity` to now. -/
def update_session_activity (store : List Session) (session_id : String)
    (now : Int) : List Session :=
  store.map (fun s => if s.session_id == session_id then
    { s with last_activity := now } else s)

/-- Embeds `SessionStore.set_session_data`: UPDATE the whole `data` column. -/
def set_session_data (store : List Session) (session_id : String)
    (data : JsonDict) : List Session :=
  store.map (fun s => if s.session_id == session_id then
    { s with data := data } else s)

/-- Embeds `SessionStore.delete_session`: DELETE by primary key. -/
def delete_session (store : List Session) (session_id : String) : List Session :=
  store.filter (fun s => !(s.session_id == session_id))

/-- Embeds `SessionStore.delete_expired_sessions`: DELETE WHERE expires_at < now,
returning the rowcount and the remaining table. -/
def delete_expired_sessions (store : List Session) (now : Int) :
    Nat × List Session :=
  let remaining := store.filter (fun s => !(decide (s.expires_at < now)))
  (store.length - remaining.length, remaining)

end SessionStore

namespace SessionManager

/-- Embeds `SessionManager.is_expired`: strict comparison `now > expires_at`. -/
def is_expired (session : Session) (now : Int) : Bool :=
  decide (now > session.expires_at)

/-- Embeds `SessionManager.create_session`: the generated token is passed in as
`session_id` (`secrets.token_urlsafe(32)` modelled as an external input);
`expires_at = now + session_timeout`. -/
def create_session (store : List Session) (session_timeout : Int)
    (session_id : String) (user_id : Int) (ip_address user_agent : Option String)
    (now : Int) : List Session :=
  SessionStore.create_session store session_id user_id (now + session_timeout)
    ip_address user_agent now

/-- Embeds `SessionManager.destroy_session`: unconditional store delete. -/
def destroy_session (store : List Session) (session_id : String) : List Session :=
  SessionStore.delete_session store session_id

/-- Embeds `SessionManager.get_session`: fetch; expired rows are treated as missing
and destroyed; otherwise `last_activity` is refreshed and the fetched record
returned. Returns the result together with the resulting table. -/
def get_session (store : List Session) (session_id : String) (now : Int) :
    Option Session × List Session :=
  match SessionStore.get_session store session_id with
  | none => (none, store)
  | some session =>
    if is_expired session now then
      (none, destroy_session store session_id)
    else
      (some session, SessionStore.update_session_activity store session_id now)

/-- Embeds `SessionManager.set_session_data`: read-modify-write of one key of the
`data` dict; silently does nothing when the row is absent. -/
def set_session_data (store : List Session) (session_id : String) (key : String)
    (value : JsonVal) : List Session :=
  match SessionStore.get_session store session_id with
  | some session => SessionStore.set_session_data store session_id
      (dictSet session.data key value)
  | none => store

/-- Embeds `SessionManager.get_session_data`: read one key of the `data` dict with a
default; performs no writes, so the table passes through unchanged. -/
def get_session_data (store : List Session) (session_id : String) (key : String)
    (dflt : JsonVal) : JsonVal × List Session :=
  match SessionStore.get_session store session_id with
  | some session => (dictGet session.data key dflt, store)
  | none => (dflt, store)

end SessionManager

/-! ### Helper lemmas about the session store -/

theorem get_session_delete_self (store : List Session) (sid : String) :
    SessionStore.get_session (SessionStore.delete_session store sid) sid = none := by
  apply List.find?_eq_none.mpr
  intro s hs
  have h2 := (List.mem_filter.mp hs).2
  simp only [Bool.not_eq_true'] at h2
  simp [h2]

theorem get_session_append_fresh (store : List Session) (s : Session)
    (hfresh : SessionStore.get_session store s.session_id = none) :
    SessionStore.get_session (store ++ [s]) s.session_id = some s := by
  unfold SessionStore.get_session at *
  rw [List.find?_append, hfresh]
  simp [List.find?]

/-- C1: a `get` on a stored session whose record satisfies `now > expires_at`
returns not-found, and because the first call deleted the record, a second
`get` on the same id (at any later probe time, with no intervening create)
also returns not-found. -/
theorem get_expired_session_not_found_and_deleted
    (store : List Session) (sid : String) (now later : Int) (s : Session)
    (hfind : SessionStore.get_session store sid = some s)
    (hexp : now > s.expires_at) :
    (SessionManager.get_session store sid now).1 = none ∧
    (SessionManager.get_session
        ((SessionManager.get_session store sid now).2) sid later).1 = none := by
  have hexpired : SessionManager.is_expired s now = true := by
    simp [SessionManager.is_expired, hexp]
  constructor
  · simp [SessionManager.get_session, hfind, hexpired]
  · simp only [SessionManager.get_session, hfind, hexpired, if_true]
    rw [SessionManager.destroy_session, get_session_delete_self]

/-- Concrete session record used to witness C1. -/
def cOneSession : Session :=
  { session_id := "s1", user_id := 1, created_at := 0, expires_at := 10,
    last_activity := 0, data := [], ip_address := none, user_agent := none }

/-- Witness for C1 at a concrete store: one session with `expires_at = 10`,
probed at times 11 and 12. -/
theorem get_expired_session_not_found_and_deleted_witness :
    SessionStore.get_session [cOneSession] "s1" = some cOneSession ∧
    (11 : Int) > cOneSession.expires_at ∧
    ((SessionManager.get_session [cOneSession] "s1" 11).1 = none ∧
     (SessionManager.get_session
        ((SessionManager.get_session [cOneSession] "s1" 11).2) "s1" 12).1 = none) :=
  ⟨rfl, by decide,
    get_expired_session_not_found_and_deleted [cOneSession] "s1" 11 12 cOneSession
      rfl (by decide)⟩

/-- C2: a session created at `t0` with timeout `T` is returned by `get` at any
probe time `t` with `created_at = t0 ≤ t ≤ t0 + T = created_at + T` (in
particular at the exact expiry instant, since the comparison is the strict
`now > expires_at`), and is treated as expired at any `t` strictly greater
than `t0 + T`. -/
theorem created_session_validity_window
    (store : List Session) (T t0 t : Int) (sid : String) (uid : Int)
    (ip ua : Option String)
    (hfresh : SessionStore.get_session store sid = none) :
    ((t0 ≤ t → t ≤ t0 + T →
      (SessionManager.get_session
          (SessionManager.create_session store T sid uid ip ua t0) sid t).1 =
        some { session_id := sid, user_id := uid, created_at := t0,
               expires_at := t0 + T, last_activity := t0, data := [],
               ip_address := ip, user_agent := ua }) ∧
     (t0 + T < t →
      (SessionManager.get_session
          (SessionManager.create_session store T sid uid ip ua t0) sid t).1 =
        none)) := by
  set newS : Session :=
    { session_id := sid, user_id := uid, created_at := t0, expires_at := t0 + T,
      last_activity := t0, data := [], ip_address := ip, user_agent := ua } with hnewS
  have hget : SessionStore.get_session
      (SessionManager.create_session store T sid uid ip ua t0) sid = some newS := by
    have := get_session_append_fresh store newS (by simpa [hnewS] using hfresh)
    simpa [SessionManager.create_session, SessionStore.create_session, hnewS] using this
  constructor
  · intro _ hle
    have hlive : SessionManager.is_expired newS t = false := by
      simp [SessionManager.is_expired, hnewS]
      exact hle
    simp [SessionManager.get_session, hget, hlive]
  · intro hgt
    have hdead : SessionManager.is_expired newS t = true := by
      simp [SessionManager.is_expired, hnewS]
      exact hgt
    simp [SessionManager.get_session, hget, hdead]

/-- Witness for C2: an empty store, timeout 10, creation at time 0; the probe
at the exact expiry instant 10 succeeds and the probe at 11 is expired. -/
theorem created_session_validity_window_witness :
    SessionStore.get_session [] "sa" = none ∧
    ((SessionManager.get_session
        (SessionManager.create_session [] 10 "sa" 7 none none 0) "sa" 10).1 =
      some { session_id := "sa", user_id := 7, created_at := 0, expires_at := 10,
             last_activity := 0, data := [], ip_address := none,
             user_agent := none } ∧
     (SessionManager.get_session
        (SessionManager.create_session [] 10 "sa" 7 none none 0) "sa" 11).1 =
      none) :=
  ⟨rfl,
   (created_session_validity_window [] 10 0 10 "sa" 7 none none rfl).1
      (by decide) (by decide),
   (created_session_validity_window [] 10 0 11 "sa" 7 none none rfl).2
      (by decide)⟩

/-! ### Claims about session data access -/

/-- Concrete expired-but-still-stored session used against C3. -/
def cThreeSession : Session :=
  { session_id := "s3", user_id := 1, created_at := 0, expires_at := 10,
    last_activity := 0, data := [], ip_address := none, user_agent := none }

/-- C3 counterexample: at time 11 the stored record `cThreeSession` is expired
(`11 > expires_at = 10`), yet `set_data` writes the key into it and the stored
state changes, so `set_data` on an expired-but-present session is not a no-op. -/
theorem set_data_on_expired_session_mutates :
    (11 : Int) > cThreeSession.expires_at ∧
    SessionManager.set_session_data [cThreeSession] "s3" "k" (JsonVal.jnum 1) =
      [{ cThreeSession with data := [("k", JsonVal.jnum 1)] }] ∧
    [{ cThreeSession with data := [("k", JsonVal.jnum 1)] }] ≠ [cThreeSession] := by
  refine ⟨by decide, rfl, ?_⟩
  intro h
  simp [cThreeSession] at h

/-- C3 (amended): `set_data` on a session id missing from the store is a
silent no-op (the function is total, so no error is surfaced, and the stored
state is unchanged); on a present record it writes regardless of expiry. -/
theorem set_data_missing_session_noop
    (store : List Session) (sid key : String) (v : JsonVal)
    (hmissing : SessionStore.get_session store sid = none) :
    SessionManager.set_session_data store sid key v = store := by
  simp [SessionManager.set_session_data, hmissing]

/-- Witness for the amended C3 on a concrete store with no such id. -/
theorem set_data_missing_session_noop_witness :
    SessionStore.get_session [cOneSession] "absent" = none ∧
    SessionManager.set_session_data [cOneSession] "absent" "k" JsonVal.jnull =
      [cOneSession] :=
  ⟨rfl, set_data_missing_session_noop [cOneSession] "absent" "k" JsonVal.jnull rfl⟩

/-- C4: on a record still present in the store with `now > expires_at`,
`get_data` bypasses the expiry check: it returns the value stored under the
key (not the default), and the table passes through unchanged — nothing is
deleted and no `last_activity` refresh happens. -/
theorem get_data_bypasses_expiry
    (store : List Session) (sid key : String) (dflt : JsonVal) (now : Int)
    (s : Session) (v : JsonVal)
    (hfind : SessionStore.get_session store sid = some s)
    (hexp : now > s.expires_at)
    (hkey : dictLookup s.data key = some v) :
    SessionManager.get_session_data store sid key dflt = (v, store) := by
  have hget : dictGet s.data key dflt = v := by
    unfold dictGet
    unfold dictLookup at hkey
    cases hfind2 : s.data.find? (fun p => p.1 == key) with
    | none => rw [hfind2] at hkey; simp at hkey
    | some p =>
      rw [hfind2] at hkey
      simp at hkey
      exact hkey
  simp [SessionManager.get_session_data, hfind, hget]

/-- Concrete expired session with stored data used to witness C4. -/
def cFourSession : Session :=
  { session_id := "s4", user_id := 2, created_at := 0, expires_at := 10,
    last_activity := 0, data := [("k", JsonVal.jstr "x")], ip_address := none,
    user_agent := none }

/-- Witness for C4: the stale record is probed at time 11 and still yields
its stored value, leaving the table unchanged. -/
theorem get_data_bypasses_expiry_witness :
    SessionStore.get_session [cFourSession] "s4" = some cFourSession ∧
    (11 : Int) > cFourSession.expires_at ∧
    dictLookup cFourSession.data "k" = some (JsonVal.jstr "x") ∧
    SessionManager.get_session_data [cFourSession] "s4" "k" JsonVal.jnull =
      (JsonVal.jstr "x", [cFourSession]) :=
  ⟨rfl, by decide, rfl,
    get_data_bypasses_expiry [cFourSession] "s4" "k" JsonVal.jnull 11 cFourSession
      (JsonVal.jstr "x") rfl (by decide) rfl⟩

/-! ### Dict round-trip lemmas for C6 -/

theorem dictGet_overwrite (d : JsonDict) (key : String) (v dflt : JsonVal)
    (h : d.any (fun p => p.1 == key) = true) :
    dictGet (d.map (fun p => if p.1 == key then (key, v) else p)) key dflt = v := by
  induction d with
  | nil => simp at h
  | cons a l ih =>
    by_cases ha : (a.1 == key) = true
    · simp [dictGet, List.find?, ha]
    · simp only [List.any_cons, ha, Bool.false_or] at h
      have hrest := ih h
      unfold dictGet at hrest ⊢
      simp only [List.map_cons, if_neg ha]
      rw [List.find?_cons_of_neg _ (by simpa using ha)]
      exact hrest

theorem dictGet_append_fresh (d : JsonDict) (key : String) (v dflt : JsonVal)
    (h : d.any (fun p => p.1 == key) = false) :
    dictGet (d ++ [(key, v)]) key dflt = v := by
  unfold dictGet
  rw [List.find?_append]
  have hnone : d.find? (fun p => p.1 == key) = none := by
    apply List.find?_eq_none.mpr
    intro p hp hpk
    have hany : d.any (fun p => p.1 == key) = true :=
      List.any_eq_true.mpr ⟨p, hp, hpk⟩
    rw [h] at hany
    exact Bool.false_ne_true hany
  rw [hnone]
  simp [List.find?]

theorem dictGet_dictSet (d : JsonDict) (key : String) (v dflt : JsonVal) :
    dictGet (dictSet d key v) key dflt = v := by
  unfold dictSet
  by_cases h : d.any (fun p => p.1 == key) = true
  · rw [if_pos h]
    exact dictGet_overwrite d key v dflt h
  · rw [if_neg h]
    exact dictGet_append_fresh d key v dflt (Bool.eq_false_iff.mpr h)

theorem get_session_map (store : List Session) (sid : String) (f : Session → Session)
    (hf : ∀ s, (f s).session_id = s.session_id) :
    SessionStore.get_session (store.map f) sid =
      (SessionStore.get_session store sid).map f := by
  unfold SessionStore.get_session
  induction store with
  | nil => simp
  | cons a l ih =>
    simp only [List.map_cons, List.find?]
    rw [hf a]
    cases a.session_id == sid with
    | true => simp
    | false => simpa using ih

/-- C6: on a session present in the store and not expired, `set_data` with any
JSON-compatible value followed immediately by `get_data` on the same key
returns exactly the value written. -/
theorem set_then_get_roundtrip
    (store : List Session) (sid key : String) (v dflt : JsonVal) (now : Int)
    (s : Session)
    (hfind : SessionStore.get_session store sid = some s)
    (hlive : ¬ now > s.expires_at) :
    (SessionManager.get_session_data
        (SessionManager.set_session_data store sid key v) sid key dflt).1 = v := by
  have hsid : (s.session_id == sid) = true := by
    have := List.find?_some hfind
    simpa using this
  have hstep : SessionManager.set_session_data store sid key v =
      store.map (fun t => if t.session_id == sid then
        { t with data := dictSet s.data key v } else t) := by
    simp [SessionManager.set_session_data, hfind, SessionStore.set_session_data]
  rw [hstep]
  have hget := get_session_map store sid
    (fun t => if t.session_id == sid then
      { t with data := dictSet s.data key v } else t)
    (by intro t; by_cases ht : (t.session_id == sid) = true <;> simp [ht])
  unfold SessionManager.get_session_data
  rw [hget, hfind]
  simp [hsid]
  have hsid2 : s.session_id = sid := by simpa using hsid
  rw [if_pos hsid2]
  exact dictGet_dictSet s.data key v dflt

/-- Concrete live session used to witness C6 with a nested JSON value. -/
def cSixSession : Session :=
  { session_id := "s6", user_id := 3, created_at := 0, expires_at := 100,
    last_activity := 0, data := [("old", JsonVal.jbool true)],
    ip_address := none, user_agent := none }

/-- Witness for C6: write a nested array value at time 5 (session live until
100) and read it straight back. -/
theorem set_then_get_roundtrip_witness :
    SessionStore.get_session [cSixSession] "s6" = some cSixSession ∧
    ¬ (5 : Int) > cSixSession.expires_at ∧
    (SessionManager.get_session_data
        (SessionManager.set_session_data [cSixSession] "s6" "cart"
          (JsonVal.jarr [JsonVal.jnum 1, JsonVal.jstr "x"]))
        "s6" "cart" JsonVal.jnull).1 =
      JsonVal.jarr [JsonVal.jnum 1, JsonVal.jstr "x"] :=
  ⟨rfl, by decide,
    set_then_get_roundtrip [cSixSession] "s6" "cart"
      (JsonVal.jarr [JsonVal.jnum 1, JsonVal.jstr "x"]) JsonVal.jnull 5 cSixSession
      rfl (by decide)⟩

/-! ### C5: invariants across sequences of manager operations -/

/-- One Session-Manager operation on the sessions table, as enumerated by the
invariant claim: `get`, `set_data`, the activity refresh, and the raw data
write of the store layer. -/
inductive MgrOp where
  | get (sid : String) (now : Int) : MgrOp
  | setData (sid key : String) (v : JsonVal) : MgrOp
  | refresh (sid : String) (now : Int) : MgrOp
  | dataWrite (sid : String) (d : JsonDict) : MgrOp

/-- Effect of one operation on the sessions table. -/
def applyOp (store : List Session) (op : MgrOp) : List Session :=
  match op with
  | .get sid now => (SessionManager.get_session store sid now).2
  | .setData sid key v => SessionManager.set_session_data store sid key v
  | .refresh sid now => SessionStore.update_session_activity store sid now
  | .dataWrite sid d => SessionStore.set_session_data store sid d

/-- Run a sequence of operations left to right. -/
def runOps (store : List Session) (ops : List MgrOp) : List Session :=
  ops.foldl applyOp store

/-- The wall-clock instant an operation reads, when it reads one. -/
def opTime : MgrOp → Option Int
  | .get _ now => some now
  | .refresh _ now => some now
  | .setData _ _ _ => none
  | .dataWrite _ _ => none

/-- The clock instants observed along the operations never go backwards and
start no earlier than the lower bound `lb`. -/
def timesOK (lb : Int) : List MgrOp → Bool
  | [] => true
  | op :: rest =>
    match opTime op with
    | none => timesOK lb rest
    | some t => decide (lb ≤ t) && timesOK t rest

/-- Single-step structure: every row surviving one operation comes from a row
of the previous table with the same id, unchanged `created_at` and
`expires_at`, and a `last_activity` that is either unchanged or the clock
instant the operation observed. -/
theorem applyOp_step (store : List Session) (op : MgrOp) (s' : Session)
    (hmem : s' ∈ applyOp store op) :
    ∃ s ∈ store, s.session_id = s'.session_id ∧ s'.created_at = s.created_at ∧
      s'.expires_at = s.expires_at ∧
      (s'.last_activity = s.last_activity ∨ opTime op = some s'.last_activity) := by
  cases op with
  | get sid now =>
    simp only [applyOp] at hmem
    cases hfind : SessionStore.get_session store sid with
    | none =>
      simp only [SessionManager.get_session, hfind] at hmem
      exact ⟨s', hmem, rfl, rfl, rfl, Or.inl rfl⟩
    | some s0 =>
      cases hexp2 : SessionManager.is_expired s0 now with
      | true =>
        simp only [SessionManager.get_session, hfind, hexp2, if_true,
          SessionManager.destroy_session, SessionStore.delete_session] at hmem
        have hin := List.mem_filter.mp hmem
        exact ⟨s', hin.1, rfl, rfl, rfl, Or.inl rfl⟩
      | false =>
        simp only [SessionManager.get_session, hfind, hexp2, Bool.false_eq_true,
          if_false, SessionStore.update_session_activity] at hmem
        rcases List.mem_map.mp hmem with ⟨a, ha, hfa⟩
        by_cases h : (a.session_id == sid) = true
        · rw [if_pos h] at hfa
          subst hfa
          exact ⟨a, ha, rfl, rfl, rfl, Or.inr rfl⟩
        · rw [if_neg h] at hfa
          subst hfa
          exact ⟨a, ha, rfl, rfl, rfl, Or.inl rfl⟩
  | setData sid key v =>
    simp only [applyOp] at hmem
    cases hfind : SessionStore.get_session store sid with
    | none =>
      simp only [SessionManager.set_session_data, hfind] at hmem
      exact ⟨s', hmem, rfl, rfl, rfl, Or.inl rfl⟩
    | some s0 =>
      simp only [SessionManager.set_session_data, hfind,
        SessionStore.set_session_data] at hmem
      rcases List.mem_map.mp hmem with ⟨a, ha, hfa⟩
      by_cases h : (a.session_id == sid) = true
      · rw [if_pos h] at hfa
        subst hfa
        exact ⟨a, ha, rfl, rfl, rfl, Or.inl rfl⟩
      · rw [if_neg h] at hfa
        subst hfa
        exact ⟨a, ha, rfl, rfl, rfl, Or.inl rfl⟩
  | refresh sid now =>
    simp only [applyOp, SessionStore.update_session_activity] at hmem
    rcases List.mem_map.mp hmem with ⟨a, ha, hfa⟩
    by_cases h : (a.session_id == sid) = true
    · rw [if_pos h] at hfa
      subst hfa
      exact ⟨a, ha, rfl, rfl, rfl, Or.inr rfl⟩
    · rw [if_neg h] at hfa
      subst hfa
      exact ⟨a, ha, rfl, rfl, rfl, Or.inl rfl⟩
  | dataWrite sid d =>
    simp only [applyOp, SessionStore.set_session_data] at hmem
    rcases List.mem_map.mp hmem with ⟨a, ha, hfa⟩
    by_cases h : (a.session_id == sid) = true
    · rw [if_pos h] at hfa
      subst hfa
      exact ⟨a, ha, rfl, rfl, rfl, Or.inl rfl⟩
    · rw [if_neg h] at hfa
      subst hfa
      exact ⟨a, ha, rfl, rfl, rfl, Or.inl rfl⟩

/-- C5: across any sequence of manager operations (`get`, `set_data`,
activity refresh, data write) whose observed clock instants never decrease
and start no earlier than any stored `last_activity`, every surviving session
row derives from a row of the initial table with the same id, an `expires_at`
that is exactly unchanged (no listed operation ever writes it, so it stays as
set at creation), and a `last_activity` that never decreased. -/
theorem expires_fixed_and_activity_monotone
    (store : List Session) (ops : List MgrOp) (lb : Int)
    (hlb : ∀ s ∈ store, s.last_activity ≤ lb)
    (hok : timesOK lb ops = true) :
    ∀ s' ∈ runOps store ops, ∃ s ∈ store, s.session_id = s'.session_id ∧
      s'.expires_at = s.expires_at ∧ s.last_activity ≤ s'.last_activity := by
  induction ops generalizing store lb with
  | nil =>
    intro s' h
    exact ⟨s', h, rfl, rfl, le_refl _⟩
  | cons op rest ih =>
    intro s' hmem
    have hrun : runOps store (op :: rest) = runOps (applyOp store op) rest := rfl
    rw [hrun] at hmem
    cases hto : opTime op with
    | none =>
      have hok2 : timesOK lb rest = true := by
        simpa only [timesOK, hto] using hok
      have hlb2 : ∀ s1 ∈ applyOp store op, s1.last_activity ≤ lb := by
        intro s1 hs1
        rcases applyOp_step store op s1 hs1 with ⟨s0, hs0, _, _, _, hla⟩
        rcases hla with heq | habs
        · rw [heq]; exact hlb s0 hs0
        · rw [hto] at habs; exact absurd habs (Option.noConfusion)
      rcases ih (applyOp store op) lb hlb2 hok2 s' hmem with ⟨s1, hs1, hid, hexp, hle⟩
      rcases applyOp_step store op s1 hs1 with ⟨s0, hs0, hid0, _, hexp0, hla0⟩
      refine ⟨s0, hs0, hid0.trans hid, hexp.trans hexp0, ?_⟩
      rcases hla0 with heq | habs
      · rw [heq] at hle; exact hle
      · rw [hto] at habs; exact absurd habs (Option.noConfusion)
    | some t =>
      have hok' : (decide (lb ≤ t) && timesOK t rest) = true := by
        simpa only [timesOK, hto] using hok
      have hparts := Bool.and_eq_true_iff.mp hok'
      have hlbt : lb ≤ t := by simpa using hparts.1
      have hok2 : timesOK t rest = true := hparts.2
      have hlb2 : ∀ s1 ∈ applyOp store op, s1.last_activity ≤ t := by
        intro s1 hs1
        rcases applyOp_step store op s1 hs1 with ⟨s0, hs0, _, _, _, hla⟩
        rcases hla with heq | hset
        · rw [heq]; exact le_trans (hlb s0 hs0) hlbt
        · rw [hto] at hset
          have : t = s1.last_activity := by injection hset
          rw [← this]
      rcases ih (applyOp store op) t hlb2 hok2 s' hmem with ⟨s1, hs1, hid, hexp, hle⟩
      rcases applyOp_step store op s1 hs1 with ⟨s0, hs0, hid0, _, hexp0, hla0⟩
      refine ⟨s0, hs0, hid0.trans hid, hexp.trans hexp0, ?_⟩
      rcases hla0 with heq | hset
      · rw [heq] at hle; exact hle
      · rw [hto] at hset
        have ht1 : t = s1.last_activity := by injection hset
        have h01 : s0.last_activity ≤ s1.last_activity := by
          rw [← ht1]; exact le_trans (hlb s0 hs0) hlbt
        exact le_trans h01 hle

/-- Concrete session used to witness C5. -/
def cFiveSession : Session :=
  { session_id := "s5", user_id := 9, created_at := 0, expires_at := 50,
    last_activity := 5, data := [], ip_address := none, user_agent := none }

/-- Concrete operation sequence used to witness C5. -/
def cFiveOps : List MgrOp :=
  [MgrOp.get "s5" 6, MgrOp.setData "s5" "k" (JsonVal.jnum 2),
   MgrOp.refresh "s5" 7, MgrOp.dataWrite "s5" [("z", JsonVal.jnull)]]

/-- Witness for C5 on a concrete table and operation sequence. -/
theorem expires_fixed_and_activity_monotone_witness :
    (∀ s ∈ [cFiveSession], s.last_activity ≤ (5 : Int)) ∧
    timesOK 5 cFiveOps = true ∧
    (∀ s' ∈ runOps [cFiveSession] cFiveOps, ∃ s ∈ [cFiveSession],
      s.session_id = s'.session_id ∧ s'.expires_at = s.expires_at ∧
      s.last_activity ≤ s'.last_activity) :=
  ⟨by decide, by decide,
    expires_fixed_and_activity_monotone [cFiveSession] cFiveOps 5
      (by decide) (by decide)⟩

/-! ### Activity tracking (src/tracking) -/

/-- One row of the `activities` table (src/tracking/activity_tracker.py,
`_init_database`; the SQL-side `created_at DEFAULT CURRENT_TIMESTAMP` column
is write-only noise and not modelled). -/
structure Activity where
  id : Int
  user_id : Int
  session_id : Option String
  event_type : String
  event_data : JsonDict
  ip_address : Option String
  user_agent : Option String
  timestamp : Int

/-- The projection of an activity row that `get_user_journey` returns. -/
structure JourneyEvent where
  event_type : String
  event_data : JsonDict
  timestamp : Int

/-- ORDER BY timestamp ASC, as a relation on activity rows. -/
def tsLE (a b : Activity) : Prop := a.timestamp ≤ b.timestamp

instance : DecidableRel tsLE := fun a b => Int.decLe a.timestamp b.timestamp

instance : IsTotal Activity tsLE := ⟨fun a b => Int.le_total a.timestamp b.timestamp⟩

instance : IsTrans Activity tsLE := ⟨fun _ _ _ => Int.le_trans⟩

/-- Python truthiness of an optional string: `if session_id:` is taken for a
non-None, non-empty string. -/
def truthyStr : Option String → Bool
  | none => false
  | some s => !(s == "")

def toJourneyEvent (a : Activity) : JourneyEvent :=
  { event_type := a.event_type, event_data := a.event_data,
    timestamp := a.timestamp }

/-- Embeds `BehavioralTracker.get_user_journey`: with a truthy session filter, all
rows of the `(user_id, session_id)` pair ordered by ascending timestamp;
otherwise the rows of the user ordered ascending and truncated to 100 by
LIMIT. SQL leaves the relative order of equal timestamps unspecified; the
embedding fixes the stable insertion-sort realization. -/
def get_user_journey (acts : List Activity) (user_id : Int)
    (session_id : Option String) : List JourneyEvent :=
  let rows :=
    if truthyStr session_id then
      (acts.filter
        (fun a => a.user_id == user_id && a.session_id == session_id)).insertionSort tsLE
    else
      ((acts.filter (fun a => a.user_id == user_id)).insertionSort tsLE).take 100
  rows.map toJourneyEvent

/-- Concrete activity row used against C7. -/
def cSevenActivity : Activity :=
  { id := 1, user_id := 1, session_id := some "sess1", event_type := "login",
    event_data := [], ip_address := none, user_agent := none, timestamp := 3 }

/-- C7 counterexample: the empty string is a session filter under the claim
as stated, no stored row carries session id `""`, yet the call returns the
one event of the user (the code treats a falsy filter as absent and runs the
unscoped capped query) instead of the empty list the claim requires. -/
theorem journey_empty_string_filter_counterexample :
    [cSevenActivity].filter
        (fun a => a.user_id == (1 : Int) && a.session_id == some "") = [] ∧
    get_user_journey [cSevenActivity] 1 (some "") =
      [toJourneyEvent cSevenActivity] := by
  constructor <;> rfl

/-- C7 (amended): `journey(user_id)` without a session filter returns at most
100 events in ascending timestamp order; with a non-None, non-empty session
filter it returns exactly the events of that `(user_id, session_id)` pair (no
100-row cap) in ascending order. A None or empty-string filter falls back to
the unscoped capped query. -/
theorem journey_cap_and_exact_filter
    (acts : List Activity) (uid : Int) (sid : String) (hsid : sid ≠ "") :
    ((get_user_journey acts uid none).length ≤ 100 ∧
     List.Sorted (fun e1 e2 : JourneyEvent => e1.timestamp ≤ e2.timestamp)
       (get_user_journey acts uid none)) ∧
    ((get_user_journey acts uid (some sid)).Perm
       ((acts.filter
          (fun a => a.user_id == uid && a.session_id == some sid)).map
            toJourneyEvent) ∧
     List.Sorted (fun e1 e2 : JourneyEvent => e1.timestamp ≤ e2.timestamp)
       (get_user_journey acts uid (some sid))) := by
  have hsorted_map : ∀ l : List Activity, List.Sorted tsLE l →
      List.Sorted (fun e1 e2 : JourneyEvent => e1.timestamp ≤ e2.timestamp)
        (l.map toJourneyEvent) := by
    intro l hl
    exact List.pairwise_map.mpr hl
  constructor
  · constructor
    · simp only [get_user_journey, truthyStr, if_false, Bool.false_eq_true,
        List.length_map, List.length_take]
      exact min_le_left _ _
    · simp only [get_user_journey, truthyStr, if_false, Bool.false_eq_true]
      apply hsorted_map
      exact List.Pairwise.sublist (List.take_sublist _ _)
        (List.sorted_insertionSort tsLE _)
  · have htruthy : truthyStr (some sid) = true := by
      simp [truthyStr]
      exact hsid
    constructor
    · simp only [get_user_journey, htruthy, if_true]
      exact (List.perm_insertionSort tsLE _).map toJourneyEvent
    · simp only [get_user_journey, htruthy, if_true]
      apply hsorted_map
      exact List.sorted_insertionSort tsLE _

/-- Witness for the amended C7 on the empty table with filter "x". -/
theorem journey_cap_and_exact_filter_witness :
    "x" ≠ "" ∧
    (((get_user_journey [] 1 none).length ≤ 100 ∧
      List.Sorted (fun e1 e2 : JourneyEvent => e1.timestamp ≤ e2.timestamp)
        (get_user_journey [] 1 none)) ∧
     ((get_user_journey [] 1 (some "x")).Perm
        ((([] : List Activity).filter
           (fun a => a.user_id == (1 : Int) && a.session_id == some "x")).map
             toJourneyEvent) ∧
      List.Sorted (fun e1 e2 : JourneyEvent => e1.timestamp ≤ e2.timestamp)
        (get_user_journey [] 1 (some "x")))) :=
  ⟨by decide, journey_cap_and_exact_filter [] 1 "x" (by decide)⟩

/-! ### Conversion funnel (src/analytics/activity_analytics.py) -/

/-- One entry of the funnel result: the dict `{step, users}` plus the
`conversion_rate` key that the second pass adds to some entries. -/
structure FunnelEntry where
  step : String
  users : Nat
  conversion_rate : Option String
deriving DecidableEq, Repr

/-- Embeds `SELECT COUNT(DISTINCT user_id) FROM activities WHERE event_type = ?`. -/
def distinctUsers (acts : List Activity) (etype : String) : Nat :=
  ((acts.filter (fun a => a.event_type == etype)).map (fun a => a.user_id)).dedup.length

/-- Two-decimal fixed rendering of a nonnegative rational, modelling the
two-decimal Python float format applied to the ratio. Python float
arithmetic is modelled by exact rational arithmetic; at the ratios arising
in the verified instance (exactly 40 and 50) the float computation and its
decimal rendering agree with this model. -/
def format2f (q : ℚ) : String :=
  let c := q * 100
  let cents : Int := (2 * c.num + (c.den : Int)) / (2 * (c.den : Int))
  let whole := cents / 100
  let frac := (cents % 100).toNat
  toString whole ++ "." ++ (if frac < 10 then "0" ++ toString frac else toString frac)

/-- Second pass of `get_conversion_funnel`: walking the entries with the raw
user count of the previous step, attach `conversion_rate` to every entry
after the first whenever the previous count is positive. -/
def addConversionRates : Option Nat → List FunnelEntry → List FunnelEntry
  | _, [] => []
  | prev, e :: rest =>
    let e2 :=
      match prev with
      | some p =>
        if 0 < p then
          let rateStr := format2f ((e.users : ℚ) / (p : ℚ) * 100) ++ "%"
          { e with conversion_rate := some rateStr }
        else e
      | none => e
    e2 :: addConversionRates (some e.users) rest

/-- Embeds `ActivityAnalytics.get_conversion_funnel`: per-step distinct-user counts,
then the conversion-rate pass. -/
def get_conversion_funnel (acts : List Activity) (steps : List String) :
    List FunnelEntry :=
  addConversionRates none
    (steps.map (fun step =>
      { step := step, users := distinctUsers acts step,
        conversion_rate := none }))

/-- Minimal activity row for populating the funnel example. -/
def mkEvent (uid : Int) (etype : String) (i : Int) : Activity :=
  { id := i, user_id := uid, session_id := none, event_type := etype,
    event_data := [], ip_address := none, user_agent := none, timestamp := 0 }

/-- Table giving steps A, B, C the distinct-user counts 10, 4 and 2. -/
def cEightActs : List Activity :=
  ((List.range 10).map (fun u => mkEvent u "A" u)) ++
  ((List.range 4).map (fun u => mkEvent u "B" (10 + u))) ++
  ((List.range 2).map (fun u => mkEvent u "C" (14 + u)))

/-- C8: over a table whose steps A, B, C have distinct-user counts 10, 4, 2,
the funnel reports no conversion-rate field for A, "40.00%" at B and
"50.00%" at C. -/
theorem format2f_forty : format2f 40 = "40.00" := by
  have h1 : ((40 : ℚ) * 100) = 4000 := by norm_num
  simp only [format2f, h1, Rat.num_ofNat, Rat.den_ofNat]
  decide

theorem format2f_fifty : format2f 50 = "50.00" := by
  have h1 : ((50 : ℚ) * 100) = 5000 := by norm_num
  simp only [format2f, h1, Rat.num_ofNat, Rat.den_ofNat]
  decide

theorem conversion_funnel_ten_four_two :
    get_conversion_funnel cEightActs ["A", "B", "C"] =
      [{ step := "A", users := 10, conversion_rate := none },
       { step := "B", users := 4, conversion_rate := some "40.00%" },
       { step := "C", users := 2, conversion_rate := some "50.00%" }] := by
  have hA : distinctUsers cEightActs "A" = 10 := by decide
  have hB : distinctUsers cEightActs "B" = 4 := by decide
  have hC : distinctUsers cEightActs "C" = 2 := by decide
  norm_num [get_conversion_funnel, addConversionRates, hA, hB, hC,
    format2f_forty, format2f_fifty]
  exact ⟨rfl, rfl⟩

/-! ### Data retention (src/compliance/data_retention.py) -/

/-- Embeds `DataRetentionPolicy.delete_old_activities`: DELETE by timestamp cutoff,
returning the rowcount and the remaining table. -/
def delete_old_activities (acts : List Activity) (retention_days now : Int) :
    Nat × List Activity :=
  let cutoff := now - retention_days * 24 * 60 * 60
  let remaining := acts.filter (fun a => !(decide (a.timestamp < cutoff)))
  (acts.length - remaining.length, remaining)

/-- Embeds `DataRetentionPolicy.delete_old_sessions`: DELETE by `created_at` cutoff,
returning the rowcount and the remaining table. -/
def delete_old_sessions (sessions : List Session) (retention_days now : Int) :
    Nat × List Session :=
  let cutoff := now - retention_days * 24 * 60 * 60
  let remaining := sessions.filter (fun s => !(decide (s.created_at < cutoff)))
  (sessions.length - remaining.length, remaining)

theorem length_sub_length_filter_not {α : Type} (l : List α) (p : α → Bool) :
    l.length - (l.filter (fun a => !(p a))).length = (l.filter p).length := by
  induction l with
  | nil => rfl
  | cons a t ih =>
    have hle := List.length_filter_le (fun a => !(p a)) t
    cases h : p a <;> simp [List.filter_cons, h] <;> omega

/-- C9: the retention sweep with `retention_days = 90` keeps exactly the
activity rows with `now - 90*86400 ≤ timestamp` and the session rows with
`now - 90*86400 ≤ created_at`, in their original order, and reports as
deleted exactly the rows whose relevant timestamp is strictly below the
cutoff. -/
theorem retention_90_deletes_exactly_older
    (acts : List Activity) (sessions : List Session) (now : Int) :
    (delete_old_activities acts 90 now).2 =
        acts.filter (fun a => decide (now - 90 * 86400 ≤ a.timestamp)) ∧
    (delete_old_activities acts 90 now).1 =
        (acts.filter (fun a => decide (a.timestamp < now - 90 * 86400))).length ∧
    (delete_old_sessions sessions 90 now).2 =
        sessions.filter (fun s => decide (now - 90 * 86400 ≤ s.created_at)) ∧
    (delete_old_sessions sessions 90 now).1 =
        (sessions.filter (fun s => decide (s.created_at < now - 90 * 86400))).length := by
  have hdays : (90 : Int) * 24 * 60 * 60 = 90 * 86400 := by norm_num
  have hnotlt : ∀ x c : Int, (!(decide (x < c))) = decide (c ≤ x) := by
    intro x c
    rw [← decide_not]
    exact decide_eq_decide.mpr not_lt
  refine ⟨?_, ?_, ?_, ?_⟩
  · simp only [delete_old_activities, hdays, hnotlt]
  · have h1 := length_sub_length_filter_not acts
      (fun a => decide (a.timestamp < now - 90 * 24 * 60 * 60))
    simp only [hdays] at h1
    simpa only [delete_old_activities, hdays] using h1
  · simp only [delete_old_sessions, hdays, hnotlt]
  · have h1 := length_sub_length_filter_not sessions
      (fun s => decide (s.created_at < now - 90 * 24 * 60 * 60))
    simp only [hdays] at h1
    simpa only [delete_old_sessions, hdays] using h1

/-! ### GDPR handler (src/compliance/gdpr_handler.py) -/

/-- One row of the `preferences` table. -/
structure PrefRecord where
  user_id : Int
  preferences : JsonDict

/-- One row of the `consent` table. -/
structure ConsentRecord where
  user_id : Int
  consent_type : String
  granted : Bool
  timestamp : Int

/-- The whole database file, as the GDPR handler sees it. -/
structure Database where
  sessions : List Session
  activities : List Activity
  preferences : List PrefRecord
  consent : List ConsentRecord

/-- The export dictionary built by `GDPRHandler.export_user_data`. -/
structure ExportData where
  user_id : Int
  export_date : Int
  sessions : List Session
  activities : List Activity
  preferences : JsonDict
  consent : List ConsentRecord

/-- Embeds `GDPRHandler.export_user_data`: full per-user read across all tables;
the preferences mapping falls back to the empty dict when no row exists. -/
def export_user_data (db : Database) (uid now : Int) : ExportData :=
  { user_id := uid, export_date := now,
    sessions := db.sessions.filter (fun s => s.user_id == uid),
    activities := db.activities.filter (fun a => a.user_id == uid),
    preferences :=
      match db.preferences.find? (fun p => p.user_id == uid) with
      | some p => p.preferences
      | none => [],
    consent := db.consent.filter (fun c => c.user_id == uid) }

/-- The summary dictionary built by `GDPRHandler.delete_user_data`. -/
structure DeleteSummary where
  user_id : Int
  sessions_deleted : Nat
  activities_deleted : Nat
  preferences_deleted : Nat
  consent_deleted : Nat
  deleted_at : Int
deriving DecidableEq, Repr

/-- Embeds `GDPRHandler.delete_user_data`: unconditional per-user delete across all
tables, reporting each rowcount. -/
def delete_user_data (db : Database) (uid now : Int) : DeleteSummary × Database :=
  ({ user_id := uid,
     sessions_deleted := (db.sessions.filter (fun s => s.user_id == uid)).length,
     activities_deleted := (db.activities.filter (fun a => a.user_id == uid)).length,
     preferences_deleted := (db.preferences.filter (fun p => p.user_id == uid)).length,
     consent_deleted := (db.consent.filter (fun c => c.user_id == uid)).length,
     deleted_at := now },
   { sessions := db.sessions.filter (fun s => !(s.user_id == uid)),
     activities := db.activities.filter (fun a => !(a.user_id == uid)),
     preferences := db.preferences.filter (fun p => !(p.user_id == uid)),
     consent := db.consent.filter (fun c => !(c.user_id == uid)) })

/-- C10: export for a user with no preference row returns the empty
preferences mapping, and erase for a user with zero rows in every table
returns all-zero deletion counts; both operations are total functions, so
neither case is an error. -/
theorem gdpr_no_rows_graceful (db : Database) (uid now : Int) :
    (db.preferences.find? (fun p => p.user_id == uid) = none →
      (export_user_data db uid now).preferences = []) ∧
    (db.sessions.filter (fun s => s.user_id == uid) = [] →
     db.activities.filter (fun a => a.user_id == uid) = [] →
     db.preferences.filter (fun p => p.user_id == uid) = [] →
     db.consent.filter (fun c => c.user_id == uid) = [] →
      (delete_user_data db uid now).1 =
        { user_id := uid, sessions_deleted := 0, activities_deleted := 0,
          preferences_deleted := 0, consent_deleted := 0, deleted_at := now }) := by
  constructor
  · intro hnone
    simp [export_user_data, hnone]
  · intro hs ha hp hc
    simp [delete_user_data, hs, ha, hp, hc]

/-- Empty database used to witness C10. -/
def cTenDb : Database :=
  { sessions := [], activities := [], preferences := [], consent := [] }

/-- Witness for C10 on the empty database. -/
theorem gdpr_no_rows_graceful_witness :
    cTenDb.preferences.find? (fun p => p.user_id == (1 : Int)) = none ∧
    cTenDb.sessions.filter (fun s => s.user_id == (1 : Int)) = [] ∧
    ((export_user_data cTenDb 1 0).preferences = [] ∧
     (delete_user_data cTenDb 1 0).1 =
       { user_id := 1, sessions_deleted := 0, activities_deleted := 0,
         preferences_deleted := 0, consent_deleted := 0, deleted_at := 0 }) :=
  ⟨rfl, rfl,
   (gdpr_no_rows_graceful cTenDb 1 0).1 rfl,
   (gdpr_no_rows_graceful cTenDb 1 0).2 rfl rfl rfl rfl⟩

end SessionMgmt
